import Mathlib

/-!
# Shallow embedding of `pre_commit/languages/download.py`

This file embeds the `download` language plugin of pre-commit: the
`Platform`, `ChecksumMismatchError`, `SRI`, `URI` and `Metadata` value
classes and the `download`, `install_environment` and `health_check`
operations, together with enough of the Python runtime they rely on
(exception classes, `str.split`/`strip`/`splitlines`, `base64`
encode/decode, `bytes.decode` codec lookup) to state and settle the
claims about them.

Bytes are `Nat` (always `< 256` in practice), byte strings are
`List Nat`, and Python exceptions are an explicit error type carried in
`Except` / `Option`.  The external hash library (`hashlib`) is embedded
as a record of its observable interface: the set of available algorithm
names, the digest function of each algorithm (incremental `update` is
concatenation, per the `hashlib` documentation) and its digest size.
-/

set_option autoImplicit false

namespace Download

/-! ## Python exception classes

The exception class hierarchy actually used by the module:
`ChecksumMismatchError(ValueError)` is declared in the source;
`binascii.Error` (raised by `base64.standard_b64decode`) is a subclass
of `ValueError` in CPython; `KeyError` is a subclass of `LookupError`.
-/

inductive PyClass where
  | exception
  | valueError
  | checksumMismatchError
  | binasciiError
  | lookupError
  | keyError
  | osError
  | unicodeDecodeError
  deriving DecidableEq, Repr

/-- The direct superclass of each exception class, as in CPython plus the
source's `class ChecksumMismatchError(ValueError)`. -/
def PyClass.superclass : PyClass → Option PyClass
  | .exception => none
  | .valueError => some .exception
  | .checksumMismatchError => some .valueError
  | .binasciiError => some .valueError
  | .lookupError => some .exception
  | .keyError => some .lookupError
  | .osError => some .exception
  | .unicodeDecodeError => some .valueError

/-- Walk up the superclass chain for at most `n` steps looking for `d`. -/
def PyClass.issubclassAux (d : PyClass) : Nat → PyClass → Bool
  | 0, _ => false
  | n + 1, e =>
    if e = d then true
    else match e.superclass with
      | none => false
      | some s => PyClass.issubclassAux d n s

/-- `issubclass`: reflexive-transitive closure of `superclass` (the
hierarchy is finite, walk at most its depth). -/
def PyClass.issubclass (c d : PyClass) : Bool :=
  PyClass.issubclassAux d 8 c

/-- A raised Python exception: its class together with the payload the
module stores in it.  `checksumMismatch` carries the keyword arguments
of `ChecksumMismatchError.__init__` (`expected`, `actual` and the
defaulted `message`); the other constructors carry `args[0]`. -/
inductive PyError where
  | valueError (msg : String)
  | checksumMismatch (expected : String) (actual : String) (message : String)
  | binasciiError (msg : String)
  | keyError (key : String)
  | lookupCodec (name : String)
  | fileNotFound (path : String)
  | unicodeDecode (msg : String)
  deriving DecidableEq, Repr

def PyError.cls : PyError → PyClass
  | .valueError _ => .valueError
  | .checksumMismatch _ _ _ => .checksumMismatchError
  | .binasciiError _ => .binasciiError
  | .keyError _ => .keyError
  | .lookupCodec _ => .lookupError
  | .fileNotFound _ => .osError
  | .unicodeDecode _ => .unicodeDecodeError

/-- `except C as e:` catches `e` exactly when the dynamic class of `e`
is a subclass of `C`. -/
def catches (c : PyClass) (e : PyError) : Bool :=
  e.cls.issubclass c

/-- `ChecksumMismatchError.__str__`. -/
def checksumMismatchStr (expected actual message : String) : String :=
  message ++ ":\n - expected: " ++ expected ++ "\n - actual  : " ++ actual ++ "\n"

/-! ## Python string primitives used by the module -/

/-- Split a character list at the first occurrence of `sep`:
`some (before, after)`, or `none` when `sep` does not occur. -/
def pySplit1Aux (sep : Char) : List Char → Option (List Char × List Char)
  | [] => none
  | c :: cs =>
    if c = sep then some ([], cs)
    else (pySplit1Aux sep cs).map fun p => (c :: p.1, p.2)

/-- `s.split(sep, 1)` for a one-character separator, unpacked into two
values: `some (before, after)` splitting at the first occurrence,
`none` when the separator does not occur (in which case the unpacking
`a, b = ...` raises `ValueError`). -/
def pySplit1 (s : String) (sep : Char) : Option (String × String) :=
  (pySplit1Aux sep s.toList).map fun p => (String.mk p.1, String.mk p.2)

/-- `str.strip()` with no argument: drop leading and trailing
whitespace. -/
def pyStrip (s : String) : String :=
  String.mk (((s.toList.dropWhile Char.isWhitespace).reverse.dropWhile
    Char.isWhitespace).reverse)

/-- Split at every occurrence of `sep` (the splitting underlying both
`str.split(sep)` and `splitlines`), keeping empty parts. -/
def splitCharAux (sep : Char) : List Char → List Char → List String
  | [], acc => [String.mk acc.reverse]
  | c :: cs, acc =>
    if c = sep then String.mk acc.reverse :: splitCharAux sep cs []
    else splitCharAux sep cs (c :: acc)

def splitChar (sep : Char) (s : String) : List String :=
  splitCharAux sep s.toList []

/-- `str.splitlines()` restricted to `\n` separators (the only line
separator occurring in this module's inputs): no kept terminators, no
trailing empty line for a trailing newline. -/
def pySplitlines (s : String) : List String :=
  if s = "" then []
  else
    let parts := splitChar '\n' s
    if parts.getLast? = some "" then parts.dropLast else parts

/-- Iterating a text-mode file object line by line (`for line in
stream`): same line boundaries as `splitlines` for `\n`-separated text
(the kept `'\n'` terminators are immaterial because every use strips
the line first, so we reuse `pySplitlines`). -/
def pyFileLines (s : String) : List String := pySplitlines s

/-- Python `repr` of a string for the strings this module formats into
error messages (no quote characters in realistic manifest entries):
single quotes, with backslash, newline and single-quote escaped. -/
def pyReprStr (s : String) : String :=
  "'" ++ String.join (s.toList.map fun c =>
    if c = '\\' then "\\\\"
    else if c = '\n' then "\\n"
    else if c = '\'' then "\\'"
    else String.mk [c]) ++ "'"

/-- Python `repr` of a list of strings (`f'... {additional_dependencies}'`). -/
def pyReprList (l : List String) : String :=
  "[" ++ String.intercalate ", " (l.map pyReprStr) ++ "]"

/-- Substring test (`in` on `str`). -/
def strContains (hay needle : String) : Bool :=
  decide (needle.toList <:+: hay.toList)

/-! ## `base64.standard_b64encode` / `standard_b64decode`

Modelled from the CPython documentation and implementation of
`binascii.b2a_base64`/`a2b_base64` in non-strict mode (the repository
calls `standard_b64decode` without `validate`): encoding maps 3-byte
groups to 4 alphabet characters with `=` padding; decoding ignores
characters outside the alphabet, counts `=` as padding, raises
`binascii.Error` when the data-character count is 1 mod 4 or the total
of data and padding characters is not a multiple of 4. -/

def b64alphabet : List Char :=
  "ABCDEFGHIJKLMNOPQRSTUVWXYZabcdefghijklmnopqrstuvwxyz0123456789+/".toList

def b64char (n : Nat) : Char := b64alphabet.getD n 'A'

/-- The 6-bit value of an alphabet character, `none` for any other
character (including `=`). -/
def b64digit (c : Char) : Option Nat :=
  b64alphabet.indexOf? c

def b64encodeChars : List Nat → List Char
  | [] => []
  | [a] => [b64char (a / 4), b64char (a % 4 * 16), '=', '=']
  | [a, b] => [b64char (a / 4), b64char (a % 4 * 16 + b / 16), b64char (b % 16 * 4), '=']
  | a :: b :: c :: rest =>
      b64char (a / 4) :: b64char (a % 4 * 16 + b / 16) ::
        b64char (b % 16 * 4 + c / 64) :: b64char (c % 64) :: b64encodeChars rest

/-- `standard_b64encode` as the byte string it returns (ASCII codes of
the encoded characters). -/
def b64encodeBytes (bs : List Nat) : List Nat :=
  (b64encodeChars bs).map Char.toNat

/-- The encoded form as a Lean string (used to speak about the decoded
text `b64encode(...).decode(...)`). -/
def b64encodeStr (bs : List Nat) : String :=
  String.mk (b64encodeChars bs)

def b64decodeDigits : List Nat → List Nat
  | a :: b :: c :: d :: rest =>
      (a * 4 + b / 16) :: (b % 16 * 16 + c / 4) :: (c % 4 * 64 + d) :: b64decodeDigits rest
  | [a, b] => [a * 4 + b / 16]
  | [a, b, _c] => [a * 4 + b / 16, b % 16 * 16 + _c / 4]
  | _ => []

/-- `standard_b64decode` on a string argument. -/
def b64decode (s : String) : Except PyError (List Nat) :=
  let digits := s.toList.filterMap b64digit
  let pads := (s.toList.filter (· = '=')).length
  if digits.length % 4 = 1 then
    .error (.binasciiError
      ("Invalid base64-encoded string: number of data characters (" ++
        toString digits.length ++ ") cannot be 1 more than a multiple of 4"))
  else if (digits.length + pads) % 4 ≠ 0 then
    .error (.binasciiError "Incorrect padding")
  else
    .ok (b64decodeDigits digits)

/-! ## `bytes.decode`: codec-name lookup

The source calls `.decode('utf-8')` (in `SRI.__init__`) and
`.decode('utf-8)')` — with a stray `)` inside the codec name — in
`SRI.check`.  CPython resolves codec names by lower-casing and
normalizing them (`encodings.normalize_encoding`: runs of characters
that are neither alphanumeric nor `.` collapse to a single `_`, and
leading/trailing runs are dropped), then consulting the alias table, so
`'utf-8)'` normalizes to `utf_8` and behaves exactly like `'utf-8'`. -/

/-- `encodings.normalize_encoding` (CPython `encodings/__init__.py`),
with an explicit accumulator for the `chars`/`punct` state. -/
def normalizeEncodingAux : List Char → Bool → List Char → List Char
  | [], _, acc => acc.reverse
  | c :: cs, punct, acc =>
    if c.isAlphanum ∨ c = '.' then
      normalizeEncodingAux cs false
        (if punct ∧ acc ≠ [] then c :: '_' :: acc else c :: acc)
    else
      normalizeEncodingAux cs true acc

def normalize_encoding (encoding : String) : String :=
  String.mk (normalizeEncodingAux encoding.toList false [])

/-- The alias names of the `utf_8` codec (CPython `encodings/aliases.py`),
plus the module name itself. -/
def utf8CodecNames : List String := ["utf_8", "utf8", "utf", "u8", "cp65001"]

/-- ASCII lower-casing (codec names are ASCII; the C-level codec lookup
lower-cases the name before the search functions run). -/
def pyLowerChar (c : Char) : Char :=
  if 'A' ≤ c ∧ c ≤ 'Z' then Char.ofNat (c.toNat + 32) else c

def pyLower (s : String) : String :=
  String.mk (s.toList.map pyLowerChar)

def codecIsUtf8 (name : String) : Bool :=
  utf8CodecNames.contains (normalize_encoding (pyLower name))

/-- `bytes.decode(codec)` for the byte strings this module decodes
(base64 output, hence ASCII).  Unknown codec names raise `LookupError`;
non-ASCII input on the UTF-8 path is modelled as `UnicodeDecodeError`
(never reached here: base64 output is ASCII). -/
def pyBytesDecode (bs : List Nat) (codec : String) : Except PyError String :=
  if codecIsUtf8 codec then
    if bs.all (· < 128) then .ok (String.mk (bs.map Char.ofNat))
    else .error (.unicodeDecode "invalid byte")
  else .error (.lookupCodec ("unknown encoding: " ++ codec))

/-! ## `hashlib`

The external hash library, embedded by its observable interface.  A
`hashlib.new(alg)` hasher is its accumulated input (successive
`update` calls concatenate, per the `hashlib` documentation), so the
finalized digest of a hasher fed `bs` is `digest alg bs`. -/

structure Hashlib where
  algorithms_available : List String
  digest : String → List Nat → List Nat
  digest_size : String → Nat

/-! ## `Platform` -/

/-- A `Platform` instance: the validated `os/cpu` string it stores. -/
structure Platform where
  value : String
  deriving DecidableEq, Repr

/-- `Platform.OS`: raw `platform.system()` name to canonical token, in
source declaration order. -/
def Platform.OS : List (String × String) :=
  [("Linux", "linux"), ("Darwin", "darwin"), ("Windows", "windows"),
   ("DragonFly", "dragonfly"), ("FreeBSD", "freebsd")]

/-- `Platform.CPU`: raw `platform.machine()` name to canonical token, in
source declaration order. -/
def Platform.CPU : List (String × String) :=
  [("aarch64", "arm64"), ("aarch64_be", "arm64be"), ("arm", "arm"),
   ("i386", "386"), ("i686", "386"), ("x86_64", "amd64"), ("AMD64", "amd64"),
   ("ppc", "ppc"), ("ppc64", "ppc64"), ("ppc64le", "ppc64le")]

/-- `dict.__getitem__`: raises `KeyError` carrying the missing key. -/
def dictGet (m : List (String × String)) (k : String) : Except PyError String :=
  match m.lookup k with
  | some v => .ok v
  | none => .error (.keyError k)

/-- `.values()` of an ordered mapping. -/
def dictValues (m : List (String × String)) : List String := m.map Prod.snd

/-- `Platform.parts`: split the stored value at the first `/`.  The
constructor only accepts values containing `/`, so the `none` branch is
unreachable for constructed tokens. -/
def Platform.parts (p : Platform) : String × String :=
  match pySplit1 p.value '/' with
  | some pr => pr
  | none => ("", "")

def Platform.os (p : Platform) : String := p.parts.1

def Platform.cpu (p : Platform) : String := p.parts.2

/-- `Platform.__init__`: store the value, split it into `os, cpu`
(raising `ValueError` when there is no `/` to unpack at) and validate
both components against the allow-list values. -/
def Platform.mk' (value : String) : Except PyError Platform :=
  match pySplit1 value '/' with
  | none => .error (.valueError "not enough values to unpack (expected 2, got 1)")
  | some (os, cpu) =>
    if ¬ (dictValues Platform.OS).contains os then
      .error (.valueError ("invalid operating system `" ++ os ++
        "`, valid values are: " ++ String.intercalate "," (dictValues Platform.OS)))
    else if ¬ (dictValues Platform.CPU).contains cpu then
      .error (.valueError ("invalid CPU `" ++ cpu ++
        "`, valid values are: " ++ String.intercalate "," (dictValues Platform.CPU)))
    else .ok ⟨value⟩

/-- The runtime environment `Platform.host` reads:
`platform.system()` and `platform.machine()`. -/
structure SysInfo where
  system : String
  machine : String

/-- `Platform.host`: subscript both allow-list mappings with the raw
names (a miss raises `KeyError`) and construct the canonical token. -/
def Platform.host (sys : SysInfo) : Except PyError Platform := do
  let os ← dictGet Platform.OS sys.system
  let cpu ← dictGet Platform.CPU sys.machine
  Platform.mk' (os ++ "/" ++ cpu)

/-- `Platform.__str__`. -/
def Platform.str (p : Platform) : String := p.os ++ "/" ++ p.cpu

/-- `Platform.__eq__` against another `Platform`: structural equality of
the parts. -/
def Platform.beq (a b : Platform) : Bool :=
  b.os == a.os && b.cpu == a.cpu

/-! ## `SRI` -/

/-- An `SRI` instance: the raw value and the `algorithm`/`checksum`
split the constructor stores. -/
structure SRI where
  value : String
  algorithm : String
  checksum : String
  deriving DecidableEq, Repr

/-- `SRI.__init__`: split the value at the first `-`, check the
algorithm is available, check the checksum round-trips through base64
decoding (decode errors propagate), and check the decoded length equals
the algorithm's digest size. -/
def SRI.mk' (hl : Hashlib) (value : String) : Except PyError SRI :=
  match pySplit1 value '-' with
  | none => .error (.valueError "not enough values to unpack (expected 2, got 1)")
  | some (algorithm, checksum) =>
    if ¬ hl.algorithms_available.contains algorithm then
      .error (.valueError ("`" ++ algorithm ++ "` is not available, choose one of: " ++
        String.intercalate "," hl.algorithms_available ++ "`"))
    else
      match b64decode checksum with
      | .error e => .error e
      | .ok decoded =>
        match pyBytesDecode (b64encodeBytes decoded) "utf-8" with
        | .error e => .error e
        | .ok roundtrip =>
          if roundtrip ≠ checksum then
            .error (.valueError
              "Invalid checksum string, the checksum string has to be encoded in base64.")
          else
            let checksum_len := decoded.length
            if checksum_len ≠ hl.digest_size algorithm then
              .error (.valueError ("Invalid checksum string length of " ++
                toString checksum_len ++ " for " ++ algorithm ++ ", expected " ++
                toString (hl.digest_size algorithm)))
            else .ok ⟨value, algorithm, checksum⟩

/-- The `while buffer := io.read(chunk)` loop of `SRI.check`.  The byte
source is embedded as the list of values successive `read` calls return
(an empty/falsy read, or the end of the list, means exhaustion).  The
hasher state is the accumulated consumed bytes; each truthy chunk is
fed to the hasher and then yielded.  Returns the yielded chunks and the
bytes the hasher consumed. -/
def checkLoop (acc : List Nat) : List (List Nat) → List (List Nat) × List Nat
  | [] => ([], acc)
  | c :: rest =>
    if c.isEmpty then ([], acc)
    else
      let r := checkLoop (acc ++ c) rest
      (c :: r.1, r.2)

/-- `SRI.check` as a pure function over the generator's observable
behavior: the chunks it yields, and the exception (if any) it raises
after the source is exhausted.  The finalized digest is base64-encoded
and decoded with the (stray-`)`) codec name `'utf-8)'`, then compared
with the stored checksum; a mismatch raises `ChecksumMismatchError`
with the stored checksum as `expected` and the computed digest as
`actual`. -/
def SRI.check (hl : Hashlib) (sri : SRI) (reads : List (List Nat)) :
    List (List Nat) × Option PyError :=
  let yc := checkLoop [] reads
  match pyBytesDecode (b64encodeBytes (hl.digest sri.algorithm yc.2)) "utf-8)" with
  | .error e => (yc.1, some e)
  | .ok digest =>
    if digest ≠ sri.checksum then
      (yc.1, some (.checksumMismatch sri.checksum digest "checksum mismatch"))
    else (yc.1, none)

/-! ## `URI` -/

structure URI where
  value : String
  deriving DecidableEq, Repr

/-- The scheme split of `urllib.parse.urlparse`: a prefix before `:` is
a scheme when it is a nonempty run of alphanumerics, `+`, `-` or `.`
starting with a letter; otherwise the whole string is the path. -/
def urlparseScheme (s : String) : String × String :=
  match pySplit1 s ':' with
  | none => ("", s)
  | some (sch, rest) =>
    if sch ≠ "" ∧ (sch.toList.headD 'a').isAlpha ∧
        sch.toList.all (fun c => c.isAlphanum ∨ c = '+' ∨ c = '-' ∨ c = '.') then
      (pyLower sch, rest)
    else ("", s)

/-- The netloc of `urlparse`: present exactly when the rest (after the
scheme) starts with `//`, and extends to the next `/`, `?` or `#`. -/
def urlparseNetloc (rest : String) : String :=
  match rest.toList with
  | '/' :: '/' :: r =>
    String.mk (r.takeWhile fun c => c ≠ '/' ∧ c ≠ '?' ∧ c ≠ '#')
  | _ => ""

/-- `URI.__post_init__`: `raise ValueError` unless the parsed URL has
both a (truthy) scheme and netloc. -/
def URI.mk' (value : String) : Except PyError URI :=
  let sr := urlparseScheme value
  if sr.1 = "" ∨ urlparseNetloc sr.2 = "" then
    .error (.valueError ("Invalid URI: " ++ value))
  else .ok ⟨value⟩

/-! ## `Metadata` -/

/-- A `Metadata` instance (frozen dataclass): the raw manifest entry. -/
structure Metadata where
  value : String
  deriving DecidableEq, Repr

/-- Unpacking `first, second, third, fourth = lines`: `ValueError`
unless there are exactly four. -/
def unpack4 (l : List String) :
    Except PyError (String × String × String × String) :=
  match l with
  | [a, b, c, d] => .ok (a, b, c, d)
  | l =>
    if l.length < 4 then
      .error (.valueError ("not enough values to unpack (expected 4, got " ++
        toString l.length ++ ")"))
    else .error (.valueError "too many values to unpack (expected 4)")

/-- `Metadata.parts`: `value.splitlines()` unpacked into four lines. -/
def Metadata.parts (m : Metadata) :
    Except PyError (String × String × String × String) :=
  unpack4 (pySplitlines m.value)

def Metadata.platform (m : Metadata) : Except PyError Platform := do
  let p ← m.parts
  Platform.mk' p.1

def Metadata.sri (hl : Hashlib) (m : Metadata) : Except PyError SRI := do
  let p ← m.parts
  SRI.mk' hl p.2.1

def Metadata.uri (m : Metadata) : Except PyError URI := do
  let p ← m.parts
  URI.mk' p.2.2.1

/-- `Metadata.filename`: the fourth line as a `PurePath`; for the plain
relative names this module handles, `str(Path(PurePath(s))) = s`. -/
def Metadata.filename (m : Metadata) : Except PyError String := do
  let p ← m.parts
  .ok p.2.2.2

/-! ## Filesystem state

The observable on-disk state the Installer and Health Checker touch:
file contents (text or binary, matching the open mode used), permission
bits set by `chmod`, and created directories. -/

inductive FData where
  | bin (bs : List Nat)
  | txt (s : String)
  deriving DecidableEq, Repr

structure FS where
  files : List (String × FData)
  modes : List (String × Nat)
  dirs : List String
  deriving DecidableEq, Repr

/-- Open for writing (`'wb'`/`'w'`): create or truncate, then the full
written content. -/
def FS.writeFile (fs : FS) (path : String) (d : FData) : FS :=
  { fs with files := (path, d) :: fs.files.filter (fun kv => kv.1 != path) }

def FS.readFile (fs : FS) (path : String) : Option FData :=
  fs.files.lookup path

def FS.chmod (fs : FS) (path : String) (mode : Nat) : FS :=
  { fs with modes := (path, mode) :: fs.modes.filter (fun kv => kv.1 != path) }

def FS.mode (fs : FS) (path : String) : Option Nat :=
  fs.modes.lookup path

def FS.mkdir (fs : FS) (path : String) : FS :=
  { fs with dirs := path :: fs.dirs }

/-- `stat.S_IRUSR` (octal 400). -/
def S_IRUSR : Nat := 256

/-- `stat.S_IXUSR` (octal 100). -/
def S_IXUSR : Nat := 64

/-- `stat.S_IWUSR` (octal 200). -/
def S_IWUSR : Nat := 128

/-! ## `download`, `install_environment`, `health_check` -/

def ENVIRONMENT_DIR : String := "download"

/-- Modelled from the spec: the environment-directory allocator
(`pre_commit.lang_base.environment_dir`, whose source is not under
`src/`) returns a deterministic directory path from the installation
root, the category label and the version (spec section 6). -/
def environment_dir (pfx category version : String) : String :=
  pfx ++ "/" ++ category ++ "-" ++ version

/-- The network, embedded as the map from a URL to the successive
chunks reads on its response stream return. -/
def Web : Type := String → List (List Nat)

/-- `download`: open the URL, open the destination for writing (the
file is created/truncated immediately), write every chunk the verify
transform yields, and on success `chmod` the file to
`S_IRUSR | S_IXUSR`.  When the transform raises, the exception
propagates: the partially written file stays and the `chmod` is
skipped. -/
def download (hl : Hashlib) (web : Web) (uri : URI) (sri : SRI)
    (filename : String) (fs : FS) : FS × Option PyError :=
  let reads := web uri.value
  let yr := SRI.check hl sri reads
  let fs := fs.writeFile filename (.bin yr.1.flatten)
  match yr.2 with
  | some e => (fs, some e)
  | none => (fs.chmod filename (S_IRUSR ||| S_IXUSR), none)

/-- The body `install_environment` runs for the selected (first
matching) entry: create the environment directory, take the
destination filename, parse the locator and then the descriptor
(errors propagate), download (verify-and-write), then write the
one-line sidecar record `'<sri>  <filename>\n'`. -/
def installMatched (hl : Hashlib) (web : Web) (pfx version : String)
    (dep : String) (fs : FS) : FS × Option PyError :=
  match Metadata.parts ⟨dep⟩ with
  | .error e => (fs, some e)
  | .ok m4 =>
    let envdir := environment_dir pfx ENVIRONMENT_DIR version
    let fs := fs.mkdir envdir
    let filename := m4.2.2.2
    match URI.mk' m4.2.2.1 with
    | .error e => (fs, some e)
    | .ok uri =>
      match SRI.mk' hl m4.2.1 with
      | .error e => (fs, some e)
      | .ok sri =>
        let dl := download hl web uri sri (envdir ++ "/" ++ filename) fs
        match dl.2 with
        | some e => (dl.1, some e)
        | none =>
          (dl.1.writeFile (envdir ++ "/health.srisum")
            (.txt (sri.value ++ "  " ++ filename ++ "\n")), none)

/-- The `for dep in additional_dependencies` loop of
`install_environment`, carrying the full dependency list for the
`KeyError` message.  Each entry's platform is parsed (errors propagate)
and compared with the host; the first match runs `installMatched` and
returns, so entries after it are never examined; when no entry matches
a `KeyError` names the host and echoes the full list. -/
def installLoop (hl : Hashlib) (web : Web) (pfx version : String)
    (host : Platform) (deps : List String) :
    List String → FS → FS × Option PyError
  | [], fs =>
    (fs, some (.keyError ("Failed to find platform `" ++ host.str ++
      "` in `additional_dependencies`: " ++ pyReprList deps)))
  | dep :: rest, fs =>
    match Metadata.platform ⟨dep⟩ with
    | .error e => (fs, some e)
    | .ok p =>
      if host.beq p then installMatched hl web pfx version dep fs
      else installLoop hl web pfx version host deps rest fs

/-- `install_environment`: determine the host platform (lookup errors
propagate), then scan the dependencies in order. -/
def install_environment (hl : Hashlib) (web : Web) (sys : SysInfo)
    (pfx version : String) (additional_dependencies : List String)
    (fs : FS) : FS × Option PyError :=
  match Platform.host sys with
  | .error e => (fs, some e)
  | .ok host =>
    installLoop hl web pfx version host additional_dependencies
      additional_dependencies fs

/-- Reading a binary file in the default 4096-byte chunks of
`SRI.check`. -/
def fileChunks (bs : List Nat) : List (List Nat) :=
  if bs = [] then []
  else bs.take 4096 :: fileChunks (bs.drop 4096)
termination_by bs.length
decreasing_by
  cases bs with
  | nil => simp_all
  | cons b t => simp [List.length_drop]; omega

/-- The `for line in stream` loop of `health_check`: strip and split
each record line, re-parse the descriptor (errors propagate), open the
referenced file (missing files propagate as `FileNotFoundError`) and
fully consume the verify transform; a raised `ChecksumMismatchError` —
and only that class — is caught and converted into the returned
message. -/
def healthLoop (hl : Hashlib) (envdir : String) (fs : FS) :
    List String → Except PyError (Option String)
  | [] => .ok none
  | line :: rest =>
    match pySplit1 (pyStrip line) ' ' with
    | none => .error (.valueError "not enough values to unpack (expected 2, got 1)")
    | some (sriRaw, fpRaw) =>
      let sri_str := pyStrip sriRaw
      let filepath := pyStrip fpRaw
      let filename := envdir ++ "/" ++ filepath
      match SRI.mk' hl sri_str with
      | .error e => .error e
      | .ok sri =>
        match fs.readFile filename with
        | none => .error (.fileNotFound filename)
        | some (.txt _) => .error (.valueError "unmodelled: binary read of a text-mode file")
        | some (.bin bs) =>
          match (SRI.check hl sri (fileChunks bs)).2 with
          | some (.checksumMismatch expected actual message) =>
            .ok (some (filepath ++ " " ++ checksumMismatchStr expected actual message ++
              "Please reinstall the Download environment"))
          | some e => .error e
          | none => healthLoop hl envdir fs rest

/-- `health_check`: open the sidecar record (a missing record
propagates as `FileNotFoundError`) and walk its lines; `None` when
every recorded file verifies. -/
def health_check (hl : Hashlib) (pfx version : String) (fs : FS) :
    Except PyError (Option String) :=
  let envdir := environment_dir pfx ENVIRONMENT_DIR version
  match fs.readFile (envdir ++ "/health.srisum") with
  | none => .error (.fileNotFound (envdir ++ "/health.srisum"))
  | some (.bin _) => .error (.valueError "unmodelled: text read of a binary file")
  | some (.txt content) => healthLoop hl envdir fs (pyFileLines content)

/-! ## A concrete hash library instance

The theorems below hold for every `Hashlib` (in particular the real
one); this small computable instance lets them be evaluated on concrete
inputs.  Its digest depends on the input (via length and a weighted
sum), which is all the concrete scenarios need. -/

def sampleHashlib : Hashlib where
  algorithms_available := ["md5", "sha1", "sha224", "sha256", "sha384", "sha512"]
  digest := fun alg data =>
    let n := if alg = "sha256" then 32 else 16
    (List.range n).map fun i =>
      (data.length * 7 + (data.map (· + 1)).sum * 3 + i * i) % 256
  digest_size := fun alg => if alg = "sha256" then 32 else 16

/-- The payload (the `args`-carried / attribute-carried data) of an
exception, rendered as its `str()` body. -/
def PyError.payload : PyError → String
  | .valueError m => m
  | .checksumMismatch e a m => checksumMismatchStr e a m
  | .binasciiError m => m
  | .keyError k => k
  | .lookupCodec n => n
  | .fileNotFound p => p
  | .unicodeDecode m => m

/-- The condition under which one iteration of the `health_check` loop
passes a record line: the stripped line splits at a space, the
descriptor parses, the referenced file exists (binary) and its digest
encodes to the stored checksum. -/
def recordLineOk (hl : Hashlib) (envdir : String) (fs : FS) (line : String) : Bool :=
  match pySplit1 (pyStrip line) ' ' with
  | none => false
  | some (sriRaw, fpRaw) =>
    match SRI.mk' hl (pyStrip sriRaw) with
    | .error _ => false
    | .ok sri =>
      match fs.readFile (envdir ++ "/" ++ pyStrip fpRaw) with
      | some (.bin bs) => b64encodeStr (hl.digest sri.algorithm bs) == sri.checksum
      | _ => false

/-- The message `health_check` returns on the first mismatch:
`f'{filepath} {err}Please reinstall the Download environment'` where
`err` renders with the expected and actual digests. -/
def healthMismatchMsg (filepath expected actual : String) : String :=
  filepath ++ " " ++ checksumMismatchStr expected actual "checksum mismatch" ++
    "Please reinstall the Download environment"

/-! ## Concrete scenario inputs for evaluating the theorems -/

def helloBytes : List Nat := [104, 101, 108, 108, 111]

def helloReads : List (List Nat) := [[104, 101], [108, 108, 111]]

def corruptReads : List (List Nat) := [[104, 101], [108]]

def helloSum : String := b64encodeStr (sampleHashlib.digest "sha256" helloBytes)

def helloSRI : SRI := ⟨"sha256-" ++ helloSum, "sha256", helloSum⟩

def helloURI : URI := ⟨"http://127.0.0.1:5555"⟩

/-- A network serving the `hello` payload at every URL. -/
def helloWeb : Web := fun _ => helloReads

/-- A network serving a truncated payload at every URL. -/
def corruptWeb : Web := fun _ => corruptReads

def emptyFS : FS := ⟨[], [], []⟩

/-- A manifest entry for `linux/amd64` binding the `hello` payload. -/
def helloDep : String :=
  "linux/amd64\nsha256-" ++ helloSum ++ "\nhttp://127.0.0.1:5555\ntest.bat"

/-- A manifest entry for `windows/amd64` (not matching a Linux host). -/
def winDep : String :=
  "windows/amd64\nsha256-" ++ helloSum ++ "\nhttp://127.0.0.1:5555\ntest.bat"

def linuxSys : SysInfo := ⟨"Linux", "x86_64"⟩

/-- The record line a successful install of `helloDep` writes. -/
def helloRecord : String := "sha256-" ++ helloSum ++ "  test.bat\n"

/-- An installation whose artifact still matches its record. -/
def fsHealthy : FS :=
  ⟨[("pfx/download-1/health.srisum", .txt helloRecord),
    ("pfx/download-1/test.bat", .bin helloBytes)], [], []⟩

/-- The same installation after the artifact was overwritten on disk. -/
def fsUnhealthy : FS :=
  ⟨[("pfx/download-1/health.srisum", .txt helloRecord),
    ("pfx/download-1/test.bat", .bin [120])], [], []⟩

/-! ## Lemmas about the embedding -/

theorem strContains_of_eq (a b pre post : String) (h : a = pre ++ b ++ post) :
    strContains a b = true := by
  subst h
  unfold strContains
  rw [decide_eq_true_eq]
  show b.data <:+: (pre ++ b ++ post).data
  simp only [String.data_append]
  exact List.infix_append _ _ _

theorem lookup_filter_ne {β : Type} (l : List (String × β)) (p q : String)
    (h : q ≠ p) :
    (l.filter (fun kv => kv.1 != p)).lookup q = l.lookup q := by
  induction l with
  | nil => rfl
  | cons kv t ih =>
    obtain ⟨k, v⟩ := kv
    by_cases hk : k = p
    · have h1 : (k != p) = false := by simp [hk]
      have h2 : (q == k) = false := by simp [hk]; exact h
      simp [List.filter_cons, h1, List.lookup_cons, h2, ih]
    · have h1 : (k != p) = true := by simp [hk]
      cases hq : (q == k) with
      | true => simp [List.filter_cons, h1, List.lookup_cons, hq]
      | false => simp [List.filter_cons, h1, List.lookup_cons, hq, ih]

theorem readFile_writeFile_self (fs : FS) (p : String) (d : FData) :
    (fs.writeFile p d).readFile p = some d := by
  simp [FS.writeFile, FS.readFile, List.lookup_cons]

theorem readFile_writeFile_ne (fs : FS) (p q : String) (d : FData) (h : q ≠ p) :
    (fs.writeFile p d).readFile q = fs.readFile q := by
  have h2 : (q == p) = false := by simp [h]
  simp [FS.writeFile, FS.readFile, List.lookup_cons, h2, lookup_filter_ne _ _ _ h]

theorem readFile_chmod (fs : FS) (p q : String) (m : Nat) :
    (fs.chmod p m).readFile q = fs.readFile q := rfl

theorem readFile_mkdir (fs : FS) (p q : String) :
    (fs.mkdir p).readFile q = fs.readFile q := rfl

theorem mode_chmod_self (fs : FS) (p : String) (m : Nat) :
    (fs.chmod p m).mode p = some m := by
  simp [FS.chmod, FS.mode, List.lookup_cons]

theorem mode_writeFile (fs : FS) (p q : String) (d : FData) :
    (fs.writeFile p d).mode q = fs.mode q := rfl

theorem mode_mkdir (fs : FS) (p q : String) :
    (fs.mkdir p).mode q = fs.mode q := rfl

theorem b64char_ascii (n : Nat) : (b64char n).toNat < 128 := by
  by_cases h : n < 64
  · have hall : ∀ m ∈ List.range 64, (b64char m).toNat < 128 := by decide
    exact hall n (List.mem_range.mpr h)
  · have hd : b64char n = 'A' := by
      apply List.getD_eq_default
      have hlen : b64alphabet.length = 64 := by decide
      omega
    rw [hd]; decide

theorem b64encodeChars_ascii : ∀ (bs : List Nat), ∀ c ∈ b64encodeChars bs, c.toNat < 128
  | [] => by simp [b64encodeChars]
  | [a] => by
    intro c hc
    simp [b64encodeChars] at hc
    rcases hc with rfl | rfl | rfl
    · exact b64char_ascii _
    · exact b64char_ascii _
    · decide
  | [a, b] => by
    intro c hc
    simp [b64encodeChars] at hc
    rcases hc with rfl | rfl | rfl | rfl
    · exact b64char_ascii _
    · exact b64char_ascii _
    · exact b64char_ascii _
    · decide
  | a :: b :: c0 :: rest => by
    intro c hc
    simp only [b64encodeChars, List.mem_cons] at hc
    rcases hc with rfl | rfl | rfl | rfl | h
    · exact b64char_ascii _
    · exact b64char_ascii _
    · exact b64char_ascii _
    · exact b64char_ascii _
    · exact b64encodeChars_ascii rest c h

theorem b64encodeBytes_ascii (bs : List Nat) :
    ∀ x ∈ b64encodeBytes bs, x < 128 := by
  intro x hx
  simp only [b64encodeBytes, List.mem_map] at hx
  obtain ⟨c, hc, rfl⟩ := hx
  exact b64encodeChars_ascii bs c hc

/-- Decoding base64 output with any codec name resolving to UTF-8 — in
particular both `'utf-8'` and the stray-`)` `'utf-8)'` — returns the
encoded text unchanged: base64 output is ASCII. -/
theorem pyBytesDecode_b64 (bs : List Nat) (codec : String)
    (h : codecIsUtf8 codec = true) :
    pyBytesDecode (b64encodeBytes bs) codec = .ok (b64encodeStr bs) := by
  have hall : (b64encodeBytes bs).all (fun x => decide (x < 128)) = true := by
    rw [List.all_eq_true]
    intro x hx
    simpa using b64encodeBytes_ascii bs x hx
  unfold pyBytesDecode
  simp only [h, if_true, hall]
  congr 1
  simp only [b64encodeBytes, b64encodeStr, List.map_map]
  congr 1
  calc (b64encodeChars bs).map (Char.ofNat ∘ Char.toNat)
      = (b64encodeChars bs).map id := by
        apply List.map_congr_left
        intro c _
        exact Char.ofNat_toNat c
    _ = b64encodeChars bs := List.map_id _

theorem codecIsUtf8_strayParen : codecIsUtf8 "utf-8)" = true := by rfl

theorem codecIsUtf8_plain : codecIsUtf8 "utf-8" = true := by rfl

/-- The read loop of `SRI.check` on a source whose reads are all
nonempty: every chunk is fed to the hasher and yielded. -/
theorem checkLoop_eq (reads : List (List Nat)) :
    ∀ acc, (∀ c ∈ reads, c ≠ []) →
      checkLoop acc reads = (reads, acc ++ reads.flatten) := by
  induction reads with
  | nil => intro acc _; simp [checkLoop]
  | cons c rest ih =>
    intro acc h
    have hc : c.isEmpty = false := by
      have := h c (by simp)
      simpa [List.isEmpty_iff] using this
    rw [checkLoop]
    simp only [hc, Bool.false_eq_true, if_false]
    rw [ih (acc ++ c) (fun x hx => h x (by simp [hx]))]
    simp

/-- `SRI.check` in closed form on a source whose reads are all
nonempty: it yields exactly the reads, and the only possible exception
is the mismatch raised after exhaustion. -/
theorem check_formula (hl : Hashlib) (sri : SRI) (reads : List (List Nat))
    (hne : ∀ c ∈ reads, c ≠ []) :
    SRI.check hl sri reads =
      (reads,
        if b64encodeStr (hl.digest sri.algorithm reads.flatten) = sri.checksum then none
        else some (.checksumMismatch sri.checksum
          (b64encodeStr (hl.digest sri.algorithm reads.flatten)) "checksum mismatch")) := by
  unfold SRI.check
  rw [checkLoop_eq reads [] hne]
  simp only [List.nil_append]
  rw [pyBytesDecode_b64 _ _ codecIsUtf8_strayParen]
  by_cases hd : b64encodeStr (hl.digest sri.algorithm reads.flatten) = sri.checksum
  · simp [hd]
  · simp [hd]

theorem fileChunks_flatten (bs : List Nat) : (fileChunks bs).flatten = bs := by
  induction bs using fileChunks.induct with
  | case1 => simp [fileChunks]
  | case2 bs h ih =>
    rw [fileChunks]
    simp only [h, if_false]
    simp [ih, List.take_append_drop]

theorem fileChunks_ne_nil (bs : List Nat) : ∀ c ∈ fileChunks bs, c ≠ [] := by
  induction bs using fileChunks.induct with
  | case1 => simp [fileChunks]
  | case2 bs h ih =>
    intro c hc
    rw [fileChunks] at hc
    simp only [h, if_false, List.mem_cons] at hc
    rcases hc with rfl | hc
    · intro hnil
      rw [List.take_eq_nil_iff] at hnil
      simp [h] at hnil
    · exact ih c hc

/-- `SRI.check` over a file read in the default 4096-byte chunks: the
end-of-iteration outcome depends only on the whole file content. -/
theorem check_fileChunks (hl : Hashlib) (sri : SRI) (bs : List Nat) :
    (SRI.check hl sri (fileChunks bs)).2 =
      if b64encodeStr (hl.digest sri.algorithm bs) = sri.checksum then none
      else some (.checksumMismatch sri.checksum
        (b64encodeStr (hl.digest sri.algorithm bs)) "checksum mismatch") := by
  rw [check_formula hl sri (fileChunks bs) (fileChunks_ne_nil bs), fileChunks_flatten]

/-- `download` with its `let`-bindings expanded. -/
theorem download_eq (hl : Hashlib) (web : Web) (uri : URI) (sri : SRI)
    (filename : String) (fs : FS) :
    download hl web uri sri filename fs =
      match (SRI.check hl sri (web uri.value)).2 with
      | some e =>
        (fs.writeFile filename (.bin (SRI.check hl sri (web uri.value)).1.flatten), some e)
      | none =>
        ((fs.writeFile filename
          (.bin (SRI.check hl sri (web uri.value)).1.flatten)).chmod
            filename (S_IRUSR ||| S_IXUSR), none) := rfl

/-- Distinct relative names give distinct paths under the same
directory. -/
theorem srisum_path_ne (envdir fn : String) (h : fn ≠ "health.srisum") :
    envdir ++ "/health.srisum" ≠ envdir ++ "/" ++ fn := by
  intro he
  apply h
  apply String.ext
  have hd := congrArg String.data he
  simp only [String.data_append, List.append_assoc] at hd
  have h4 := List.append_cancel_left hd
  simp only [List.cons_append, List.nil_append, List.cons.injEq, true_and] at h4
  have h5 : ("health.srisum" : String).data =
      ['h', 'e', 'a', 'l', 't', 'h', '.', 's', 'r', 'i', 's', 'u', 'm'] := rfl
  rw [h5]
  exact h4.symm

/-- The install loop ignores (and leaves the state unchanged through)
a prefix of entries that parse and do not match the host. -/
theorem installLoop_skip (hl : Hashlib) (web : Web) (pfx version : String)
    (host : Platform) (deps : List String) (pre rest : List String) (fs : FS)
    (hpre : ∀ d ∈ pre, ∃ p, Metadata.platform ⟨d⟩ = .ok p ∧ host.beq p = false) :
    installLoop hl web pfx version host deps (pre ++ rest) fs =
      installLoop hl web pfx version host deps rest fs := by
  induction pre with
  | nil => rfl
  | cons d ds ih =>
    obtain ⟨p, hp, hb⟩ := hpre d (by simp)
    rw [List.cons_append]
    simp only [installLoop, hp, hb, Bool.false_eq_true, if_false]
    exact ih (fun x hx => hpre x (by simp [hx]))

/-- When no entry matches, the install loop raises the lookup
`KeyError` and leaves the state unchanged. -/
theorem installLoop_nomatch (hl : Hashlib) (web : Web) (pfx version : String)
    (host : Platform) (deps : List String) (l : List String) (fs : FS)
    (hall : ∀ d ∈ l, ∃ p, Metadata.platform ⟨d⟩ = .ok p ∧ host.beq p = false) :
    installLoop hl web pfx version host deps l fs =
      (fs, some (.keyError ("Failed to find platform `" ++ host.str ++
        "` in `additional_dependencies`: " ++ pyReprList deps))) := by
  have := installLoop_skip hl web pfx version host deps l [] fs
  rw [List.append_nil] at this
  rw [this hall]
  rfl

/-- One iteration of the `health_check` loop on a verifying line moves
on to the rest. -/
theorem healthLoop_cons_ok (hl : Hashlib) (envdir : String) (fs : FS)
    (line : String) (rest : List String)
    (hok : recordLineOk hl envdir fs line = true) :
    healthLoop hl envdir fs (line :: rest) = healthLoop hl envdir fs rest := by
  unfold recordLineOk at hok
  cases hsp : pySplit1 (pyStrip line) ' ' with
  | none => simp only [hsp] at hok; exact Bool.noConfusion hok
  | some pr =>
    obtain ⟨sriRaw, fpRaw⟩ := pr
    simp only [hsp] at hok
    cases hs : SRI.mk' hl (pyStrip sriRaw) with
    | error e => simp only [hs] at hok; exact Bool.noConfusion hok
    | ok sri =>
      simp only [hs] at hok
      cases hr : fs.readFile (envdir ++ "/" ++ pyStrip fpRaw) with
      | none => simp only [hr] at hok; exact Bool.noConfusion hok
      | some fd =>
        cases fd with
        | txt s => simp only [hr] at hok; exact Bool.noConfusion hok
        | bin bs =>
          simp only [hr, beq_iff_eq] at hok
          simp only [healthLoop, hsp, hs, hr]
          rw [check_fileChunks, if_pos hok]

theorem healthLoop_skip (hl : Hashlib) (envdir : String) (fs : FS)
    (pre rest : List String)
    (hpre : ∀ l ∈ pre, recordLineOk hl envdir fs l = true) :
    healthLoop hl envdir fs (pre ++ rest) = healthLoop hl envdir fs rest := by
  induction pre with
  | nil => rfl
  | cons l t ih =>
    rw [List.cons_append, healthLoop_cons_ok hl envdir fs l _ (hpre l (by simp))]
    exact ih (fun x hx => hpre x (by simp [hx]))

/-- One iteration of the `health_check` loop on a mismatching line
catches the raised `ChecksumMismatchError` and returns the message,
never examining the rest. -/
theorem healthLoop_cons_mismatch (hl : Hashlib) (envdir : String) (fs : FS)
    (line : String) (rest : List String) (sriRaw fpRaw : String) (sri : SRI)
    (bs : List Nat)
    (hsp : pySplit1 (pyStrip line) ' ' = some (sriRaw, fpRaw))
    (hs : SRI.mk' hl (pyStrip sriRaw) = .ok sri)
    (hr : fs.readFile (envdir ++ "/" ++ pyStrip fpRaw) = some (.bin bs))
    (hbad : b64encodeStr (hl.digest sri.algorithm bs) ≠ sri.checksum) :
    healthLoop hl envdir fs (line :: rest) =
      .ok (some (pyStrip fpRaw ++ " " ++
        checksumMismatchStr sri.checksum (b64encodeStr (hl.digest sri.algorithm bs))
          "checksum mismatch" ++
        "Please reinstall the Download environment")) := by
  simp only [healthLoop, hsp, hs, hr]
  rw [check_fileChunks, if_neg hbad]

theorem metadata_platform_ok (dep pl sr ur fn : String) (p : Platform)
    (hparts : Metadata.parts ⟨dep⟩ = .ok (pl, sr, ur, fn))
    (hpl : Platform.mk' pl = .ok p) :
    Metadata.platform ⟨dep⟩ = .ok p := by
  unfold Metadata.platform
  rw [hparts]
  exact hpl

theorem pySplit1Aux_append (sep : Char) (a r : List Char) (h : sep ∉ a) :
    pySplit1Aux sep (a ++ sep :: r) = some (a, r) := by
  induction a with
  | nil => simp [pySplit1Aux]
  | cons c cs ih =>
    have hc : ¬ c = sep := fun e => h (by simp [e])
    have heq : pySplit1Aux sep (c :: (cs ++ sep :: r)) =
        (pySplit1Aux sep (cs ++ sep :: r)).map (fun p => (c :: p.1, p.2)) := by
      simp [pySplit1Aux, hc]
    rw [List.cons_append, heq, ih (fun hm => h (List.mem_cons_of_mem _ hm))]
    rfl

/-- Splitting `os ++ "/" ++ cpu` at the first `/` (the os component
slash-free) recovers the components. -/
theorem pySplit1_slash (os cpu : String) (h : '/' ∉ os.data) :
    pySplit1 (os ++ "/" ++ cpu) '/' = some (os, cpu) := by
  unfold pySplit1
  have hdata : (os ++ "/" ++ cpu).toList = os.data ++ '/' :: cpu.data := by
    show (os ++ "/" ++ cpu).data = _
    simp only [String.data_append, List.append_assoc]
    rfl
  rw [hdata, pySplit1Aux_append _ _ _ h]
  rfl

/-- Both error branches of `b64decode` raise `binascii.Error`. -/
theorem b64decode_error_class (s : String) (e : PyError)
    (h : b64decode s = .error e) : e.cls = .binasciiError := by
  simp only [b64decode] at h
  split_ifs at h with h1 h2
  · simp only [Except.error.injEq] at h
    subst h
    rfl
  · simp only [Except.error.injEq] at h
    subst h
    rfl

/-- Every error `SRI.__init__` raises is caught by `except ValueError`
and by no `except ChecksumMismatchError`. -/
theorem SRI_mk_error_class (hl : Hashlib) (s : String) (e : PyError)
    (h : SRI.mk' hl s = .error e) :
    catches .valueError e = true ∧ catches .checksumMismatchError e = false := by
  unfold SRI.mk' at h
  cases hsp : pySplit1 s '-' with
  | none =>
    simp only [hsp, Except.error.injEq] at h
    subst h
    exact ⟨rfl, rfl⟩
  | some pr =>
    obtain ⟨algorithm, checksum⟩ := pr
    simp only [hsp] at h
    cases hcb : hl.algorithms_available.contains algorithm with
    | false =>
      rw [if_pos (by simp only [hcb]; decide)] at h
      simp only [Except.error.injEq] at h
      subst h
      exact ⟨rfl, rfl⟩
    | true =>
      rw [if_neg (by simp only [hcb]; decide)] at h
      cases hb : b64decode checksum with
      | error eb =>
        simp only [hb, Except.error.injEq] at h
        subst h
        have hcls := b64decode_error_class checksum eb hb
        unfold catches
        rw [hcls]
        exact ⟨rfl, rfl⟩
      | ok d =>
        simp only [hb, pyBytesDecode_b64 d _ codecIsUtf8_plain] at h
        by_cases hrt : b64encodeStr d ≠ checksum
        · rw [if_pos hrt] at h
          simp only [Except.error.injEq] at h
          subst h
          exact ⟨rfl, rfl⟩
        · rw [if_neg hrt] at h
          by_cases hlen : d.length ≠ hl.digest_size algorithm
          · rw [if_pos hlen] at h
            simp only [Except.error.injEq] at h
            subst h
            exact ⟨rfl, rfl⟩
          · rw [if_neg hlen] at h
            exact absurd h (by simp)

/-- Every error `Platform.__init__` raises is caught by
`except ValueError` and by no `except ChecksumMismatchError`. -/
theorem Platform_mk_error_class (s : String) (e : PyError)
    (h : Platform.mk' s = .error e) :
    catches .valueError e = true ∧ catches .checksumMismatchError e = false := by
  unfold Platform.mk' at h
  cases hsp : pySplit1 s '/' with
  | none =>
    simp only [hsp, Except.error.injEq] at h
    subst h
    exact ⟨rfl, rfl⟩
  | some pr =>
    obtain ⟨os, cpu⟩ := pr
    simp only [hsp] at h
    cases h1 : (dictValues Platform.OS).contains os with
    | false =>
      rw [if_pos (by simp only [h1]; decide)] at h
      simp only [Except.error.injEq] at h
      subst h
      exact ⟨rfl, rfl⟩
    | true =>
      rw [if_neg (by simp only [h1]; decide)] at h
      cases h2 : (dictValues Platform.CPU).contains cpu with
      | false =>
        rw [if_pos (by simp only [h2]; decide)] at h
        simp only [Except.error.injEq] at h
        subst h
        exact ⟨rfl, rfl⟩
      | true =>
        rw [if_neg (by simp only [h2]; decide)] at h
        exact absurd h (by simp)

/-- Every error `URI.__post_init__` raises is caught by
`except ValueError` and by no `except ChecksumMismatchError`. -/
theorem URI_mk_error_class (s : String) (e : PyError)
    (h : URI.mk' s = .error e) :
    catches .valueError e = true ∧ catches .checksumMismatchError e = false := by
  simp only [URI.mk'] at h
  split_ifs at h with h1
  simp only [Except.error.injEq] at h
  subst h
  exact ⟨rfl, rfl⟩

/-! ## The claims -/

/-- C1: for every integrity descriptor and every byte source (embedded
as its successive nonempty reads), the chunked verify transform
`SRI.check` yields onward exactly the chunks it reads, unchanged — and
that equality holds whatever the digest comparison's outcome, so no
failure occurs before the source is exhausted; hence the concatenation
of the yielded chunks equals the full source content; and when the
source's bytes are exactly the bytes whose digest the descriptor
stores, the iteration completes without raising any error. -/
theorem C1_check_passthrough (hl : Hashlib) (sri : SRI) (reads : List (List Nat))
    (hne : ∀ c ∈ reads, c ≠ []) :
    (SRI.check hl sri reads).1 = reads ∧
    ((SRI.check hl sri reads).1).flatten = reads.flatten ∧
    (b64encodeStr (hl.digest sri.algorithm reads.flatten) = sri.checksum →
      (SRI.check hl sri reads).2 = none) := by
  rw [check_formula hl sri reads hne]
  refine ⟨rfl, rfl, fun h => ?_⟩
  simp [h]

theorem C1_check_passthrough_witness :
    ((∀ c ∈ helloReads, c ≠ ([] : List Nat)) ∧
      b64encodeStr (sampleHashlib.digest helloSRI.algorithm helloReads.flatten) =
        helloSRI.checksum) ∧
    (SRI.check sampleHashlib helloSRI helloReads).1 = helloReads ∧
    (SRI.check sampleHashlib helloSRI helloReads).2 = none := by
  refine ⟨⟨by decide, by decide⟩, ?_, ?_⟩
  · exact (C1_check_passthrough sampleHashlib helloSRI helloReads (by decide)).1
  · exact (C1_check_passthrough sampleHashlib helloSRI helloReads (by decide)).2.2 (by decide)

/-- C2: the digest comparison of `SRI.check` is exactly "base64-encode
the finalized digest of the consumed bytes and compare it with the
stored digest": the decode step, despite the stray `)` inside its codec
name, returns the base64 text with no extra character appended.  On
mismatch it raises a `ChecksumMismatchError` whose `expected` is the
stored digest and whose `actual` is the plain base64 encoding of the
digest of the bytes actually read; that error's class is caught by an
`except ChecksumMismatchError` handler while ordinary parse errors
(`ValueError`) are not, so the two are distinguishable. -/
theorem C2_digest_comparison (hl : Hashlib) (sri : SRI) (reads : List (List Nat))
    (hne : ∀ c ∈ reads, c ≠ [])
    (hmm : b64encodeStr (hl.digest sri.algorithm reads.flatten) ≠ sri.checksum) :
    (∀ bs, pyBytesDecode (b64encodeBytes bs) "utf-8)" = .ok (b64encodeStr bs)) ∧
    (SRI.check hl sri reads).2 = some (.checksumMismatch sri.checksum
      (b64encodeStr (hl.digest sri.algorithm reads.flatten)) "checksum mismatch") ∧
    (∀ E A M, catches .checksumMismatchError (.checksumMismatch E A M) = true) ∧
    (∀ msg, catches .checksumMismatchError (.valueError msg) = false) := by
  refine ⟨fun bs => pyBytesDecode_b64 bs _ codecIsUtf8_strayParen, ?_,
    fun E A M => rfl, fun msg => rfl⟩
  rw [check_formula hl sri reads hne]
  simp [hmm]

theorem C2_digest_comparison_witness :
    ((∀ c ∈ corruptReads, c ≠ ([] : List Nat)) ∧
      b64encodeStr (sampleHashlib.digest helloSRI.algorithm corruptReads.flatten) ≠
        helloSRI.checksum) ∧
    (SRI.check sampleHashlib helloSRI corruptReads).2 =
      some (.checksumMismatch helloSRI.checksum
        (b64encodeStr (sampleHashlib.digest helloSRI.algorithm corruptReads.flatten))
        "checksum mismatch") := by
  refine ⟨⟨by decide, by decide⟩, ?_⟩
  exact (C2_digest_comparison sampleHashlib helloSRI corruptReads
    (by decide) (by decide)).2.1

/-- C8: for every download whose bytes verify against the descriptor,
`download` completes without error, the destination holds the full
verified content, and its permission bits are set to exactly
`S_IRUSR ||| S_IXUSR` — numerically 320, octal `500`: read and execute
for the owner only, no write bit for anyone, no group or other
access. -/
theorem C8_download_permissions (hl : Hashlib) (web : Web) (uri : URI) (sri : SRI)
    (filename : String) (fs : FS)
    (hne : ∀ c ∈ web uri.value, c ≠ [])
    (hok : b64encodeStr (hl.digest sri.algorithm (web uri.value).flatten) = sri.checksum) :
    (download hl web uri sri filename fs).2 = none ∧
    (download hl web uri sri filename fs).1.readFile filename =
      some (.bin (web uri.value).flatten) ∧
    (download hl web uri sri filename fs).1.mode filename = some (S_IRUSR ||| S_IXUSR) ∧
    S_IRUSR ||| S_IXUSR = 320 := by
  rw [download_eq, check_formula hl sri (web uri.value) hne, if_pos hok]
  refine ⟨rfl, ?_, ?_, by decide⟩
  · show ((fs.writeFile filename
        (.bin (web uri.value).flatten)).chmod filename (S_IRUSR ||| S_IXUSR)).readFile
          filename = some (.bin (web uri.value).flatten)
    rw [readFile_chmod]
    exact readFile_writeFile_self fs filename (.bin (web uri.value).flatten)
  · exact mode_chmod_self _ filename _

/-- C3: when the downloaded payload does not hash to the stored digest,
`install_environment` raises the integrity error — the
`ChecksumMismatchError` whose `expected` field is the stored digest —
the partially written destination file is left on disk holding the
downloaded bytes, and the sidecar verification record is never written:
the record path's content is exactly what it was before the failed
install (for a destination filename distinct from the record's fixed
name), so a fresh failed install produces no verification record. -/
theorem C3_failed_install_no_record (hl : Hashlib) (web : Web) (sys : SysInfo)
    (pfx version : String) (pre post : List String) (dep : String) (fs : FS)
    (host : Platform) (hhost : Platform.host sys = .ok host)
    (hpre : ∀ d ∈ pre, ∃ q, Metadata.platform ⟨d⟩ = .ok q ∧ host.beq q = false)
    (pl sr ur fn : String)
    (hparts : Metadata.parts ⟨dep⟩ = .ok (pl, sr, ur, fn))
    (hfn : fn ≠ "health.srisum")
    (p : Platform) (hpl : Platform.mk' pl = .ok p) (hmatch : host.beq p = true)
    (uri : URI) (hur : URI.mk' ur = .ok uri)
    (sri : SRI) (hsr : SRI.mk' hl sr = .ok sri)
    (hne : ∀ c ∈ web uri.value, c ≠ [])
    (hbad : b64encodeStr (hl.digest sri.algorithm (web uri.value).flatten) ≠ sri.checksum) :
    (install_environment hl web sys pfx version (pre ++ dep :: post) fs).2 =
      some (.checksumMismatch sri.checksum
        (b64encodeStr (hl.digest sri.algorithm (web uri.value).flatten))
        "checksum mismatch") ∧
    (install_environment hl web sys pfx version (pre ++ dep :: post) fs).1.readFile
        (environment_dir pfx ENVIRONMENT_DIR version ++ "/" ++ fn) =
      some (.bin (web uri.value).flatten) ∧
    (install_environment hl web sys pfx version (pre ++ dep :: post) fs).1.readFile
        (environment_dir pfx ENVIRONMENT_DIR version ++ "/health.srisum") =
      fs.readFile (environment_dir pfx ENVIRONMENT_DIR version ++ "/health.srisum") := by
  have hplat := metadata_platform_ok dep pl sr ur fn p hparts hpl
  have key : install_environment hl web sys pfx version (pre ++ dep :: post) fs =
      ((fs.mkdir (environment_dir pfx ENVIRONMENT_DIR version)).writeFile
        (environment_dir pfx ENVIRONMENT_DIR version ++ "/" ++ fn)
        (.bin (web uri.value).flatten),
       some (.checksumMismatch sri.checksum
         (b64encodeStr (hl.digest sri.algorithm (web uri.value).flatten))
         "checksum mismatch")) := by
    unfold install_environment
    simp only [hhost]
    rw [installLoop_skip hl web pfx version host _ pre (dep :: post) fs hpre]
    simp only [installLoop, hplat, hmatch, if_true]
    simp only [installMatched, hparts]
    simp only [hur, hsr]
    rw [download_eq, check_formula hl sri (web uri.value) hne, if_neg hbad]
  rw [key]
  refine ⟨rfl, ?_, ?_⟩
  · exact readFile_writeFile_self _ _ _
  · rw [readFile_writeFile_ne _ _ _ _ (srisum_path_ne _ fn hfn)]
    exact readFile_mkdir fs _ _

theorem C3_failed_install_no_record_witness :
    (install_environment sampleHashlib corruptWeb linuxSys "pfx" "1"
      [winDep, helloDep] emptyFS).2 =
      some (.checksumMismatch helloSRI.checksum
        (b64encodeStr (sampleHashlib.digest helloSRI.algorithm
          (corruptWeb helloURI.value).flatten))
        "checksum mismatch") ∧
    (install_environment sampleHashlib corruptWeb linuxSys "pfx" "1"
      [winDep, helloDep] emptyFS).1.readFile
        (environment_dir "pfx" ENVIRONMENT_DIR "1" ++ "/" ++ "test.bat") =
      some (.bin (corruptWeb helloURI.value).flatten) ∧
    (install_environment sampleHashlib corruptWeb linuxSys "pfx" "1"
      [winDep, helloDep] emptyFS).1.readFile
        (environment_dir "pfx" ENVIRONMENT_DIR "1" ++ "/health.srisum") = none := by
  have h := C3_failed_install_no_record sampleHashlib corruptWeb linuxSys "pfx" "1"
    [winDep] [] helloDep emptyFS ⟨"linux/amd64"⟩ (by rfl)
    (by
      intro d hd
      simp only [List.mem_singleton] at hd
      subst hd
      exact ⟨⟨"windows/amd64"⟩, by rfl, by rfl⟩)
    "linux/amd64" ("sha256-" ++ helloSum) "http://127.0.0.1:5555" "test.bat"
    (by rfl) (by decide) ⟨"linux/amd64"⟩ (by rfl) (by rfl)
    helloURI (by rfl) helloSRI (by rfl) (by decide) (by decide)
  exact ⟨h.1, h.2.1, (h.2.2).trans rfl⟩

/-- C4: `health_check` reads the sidecar record line by line and
re-verifies each referenced file against its stored checksum.  When
every recorded line verifies it returns the absence-of-error signal
(`None`, no exception).  On the first verification mismatch it returns
— rather than raises — a human-readable message embedding the relative
filename, the expected digest, the actual digest and a reinstall
remediation hint, and the returned value does not depend on the lines
after the mismatching one (they are never checked). -/
theorem C4_health_check (hl : Hashlib) (pfx version : String) (fs : FS)
    (content : String)
    (hrec : fs.readFile (environment_dir pfx ENVIRONMENT_DIR version ++
      "/health.srisum") = some (.txt content)) :
    ((∀ l ∈ pyFileLines content,
        recordLineOk hl (environment_dir pfx ENVIRONMENT_DIR version) fs l = true) →
      health_check hl pfx version fs = .ok none) ∧
    (∀ pre line rest sriRaw fpRaw sri bs,
      pyFileLines content = pre ++ line :: rest →
      (∀ l ∈ pre,
        recordLineOk hl (environment_dir pfx ENVIRONMENT_DIR version) fs l = true) →
      pySplit1 (pyStrip line) ' ' = some (sriRaw, fpRaw) →
      SRI.mk' hl (pyStrip sriRaw) = .ok sri →
      fs.readFile (environment_dir pfx ENVIRONMENT_DIR version ++ "/" ++
        pyStrip fpRaw) = some (.bin bs) →
      b64encodeStr (hl.digest sri.algorithm bs) ≠ sri.checksum →
      (health_check hl pfx version fs = .ok (some (healthMismatchMsg (pyStrip fpRaw)
          sri.checksum (b64encodeStr (hl.digest sri.algorithm bs)))) ∧
        strContains (healthMismatchMsg (pyStrip fpRaw) sri.checksum
          (b64encodeStr (hl.digest sri.algorithm bs))) (pyStrip fpRaw) = true ∧
        strContains (healthMismatchMsg (pyStrip fpRaw) sri.checksum
          (b64encodeStr (hl.digest sri.algorithm bs))) sri.checksum = true ∧
        strContains (healthMismatchMsg (pyStrip fpRaw) sri.checksum
          (b64encodeStr (hl.digest sri.algorithm bs)))
          (b64encodeStr (hl.digest sri.algorithm bs)) = true ∧
        strContains (healthMismatchMsg (pyStrip fpRaw) sri.checksum
          (b64encodeStr (hl.digest sri.algorithm bs))) "reinstall" = true)) := by
  constructor
  · intro hall
    unfold health_check
    simp only [hrec]
    rw [← List.append_nil (pyFileLines content),
      healthLoop_skip hl _ fs _ [] hall]
    rfl
  · intro pre line rest sriRaw fpRaw sri bs hsplit hpre hsp hs hr hbad
    refine ⟨?_, ?_, ?_, ?_, ?_⟩
    · unfold health_check
      simp only [hrec]
      rw [hsplit, healthLoop_skip hl _ fs pre _ hpre,
        healthLoop_cons_mismatch hl _ fs line rest sriRaw fpRaw sri bs hsp hs hr hbad]
      rfl
    · exact strContains_of_eq _ _ ""
        (" " ++ checksumMismatchStr sri.checksum
          (b64encodeStr (hl.digest sri.algorithm bs)) "checksum mismatch" ++
          "Please reinstall the Download environment")
        (by
          apply String.ext
          simp [healthMismatchMsg, String.data_append, List.append_assoc])
    · exact strContains_of_eq _ _
        (pyStrip fpRaw ++ " " ++ "checksum mismatch" ++ ":\n - expected: ")
        ("\n - actual  : " ++ b64encodeStr (hl.digest sri.algorithm bs) ++ "\n" ++
          "Please reinstall the Download environment")
        (by
          apply String.ext
          simp [healthMismatchMsg, checksumMismatchStr, String.data_append,
            List.append_assoc])
    · exact strContains_of_eq _ _
        (pyStrip fpRaw ++ " " ++ "checksum mismatch" ++ ":\n - expected: " ++
          sri.checksum ++ "\n - actual  : ")
        ("\n" ++ "Please reinstall the Download environment")
        (by
          apply String.ext
          simp [healthMismatchMsg, checksumMismatchStr, String.data_append,
            List.append_assoc])
    · exact strContains_of_eq _ _
        (pyStrip fpRaw ++ " " ++ checksumMismatchStr sri.checksum
          (b64encodeStr (hl.digest sri.algorithm bs)) "checksum mismatch" ++
          "Please ")
        (" the Download environment")
        (by
          apply String.ext
          simp [healthMismatchMsg, checksumMismatchStr, String.data_append,
            List.append_assoc])

theorem C4_health_check_witness :
    health_check sampleHashlib "pfx" "1" fsHealthy = .ok none ∧
    health_check sampleHashlib "pfx" "1" fsUnhealthy =
      .ok (some (healthMismatchMsg "test.bat" helloSum
        (b64encodeStr (sampleHashlib.digest "sha256" [120])))) := by
  constructor
  · exact (C4_health_check sampleHashlib "pfx" "1" fsHealthy helloRecord
      (by rfl)).1 (by decide)
  · have h := (C4_health_check sampleHashlib "pfx" "1" fsUnhealthy helloRecord
      (by rfl)).2 [] ("sha256-" ++ helloSum ++ "  test.bat") []
      ("sha256-" ++ helloSum) " test.bat" helloSRI [120]
      (by rfl) (by simp) (by rfl) (by rfl) (by rfl) (by decide)
    exact h.1

/-- C5: `install_environment` scans the manifest entries in the order
supplied and installs the first entry whose platform token equals the
host token — the result is the install of that entry, independent of
everything after it, so with several matching entries the first wins —
and when no entry matches it fails with a `KeyError` whose message
names the computed host platform and echoes the full list of manifest
entries. -/
theorem C5_first_match (hl : Hashlib) (web : Web) (sys : SysInfo)
    (pfx version : String) (fs : FS) (host : Platform)
    (hhost : Platform.host sys = .ok host) :
    (∀ pre dep post p,
      (∀ d ∈ pre, ∃ q, Metadata.platform ⟨d⟩ = .ok q ∧ host.beq q = false) →
      Metadata.platform ⟨dep⟩ = .ok p → host.beq p = true →
      install_environment hl web sys pfx version (pre ++ dep :: post) fs =
        installMatched hl web pfx version dep fs) ∧
    (∀ deps,
      (∀ d ∈ deps, ∃ q, Metadata.platform ⟨d⟩ = .ok q ∧ host.beq q = false) →
      install_environment hl web sys pfx version deps fs =
        (fs, some (.keyError ("Failed to find platform `" ++ host.str ++
          "` in `additional_dependencies`: " ++ pyReprList deps)))) := by
  constructor
  · intro pre dep post p hpre hplat hmatch
    unfold install_environment
    simp only [hhost]
    rw [installLoop_skip hl web pfx version host _ pre (dep :: post) fs hpre]
    simp only [installLoop, hplat, hmatch, if_true]
  · intro deps hall
    unfold install_environment
    simp only [hhost]
    exact installLoop_nomatch hl web pfx version host deps deps fs hall

theorem C5_first_match_witness :
    install_environment sampleHashlib helloWeb linuxSys "pfx" "1"
      [winDep, helloDep, helloDep] emptyFS =
      installMatched sampleHashlib helloWeb "pfx" "1" helloDep emptyFS ∧
    (install_environment sampleHashlib helloWeb linuxSys "pfx" "1"
      [winDep] emptyFS).2 =
      some (.keyError ("Failed to find platform `linux/amd64` in " ++
        "`additional_dependencies`: " ++ pyReprList [winDep])) := by
  have hskip : ∀ d ∈ [winDep], ∃ q, Metadata.platform ⟨d⟩ = .ok q ∧
      Platform.beq ⟨"linux/amd64"⟩ q = false := by
    intro d hd
    simp only [List.mem_singleton] at hd
    subst hd
    exact ⟨⟨"windows/amd64"⟩, by rfl, by rfl⟩
  constructor
  · exact (C5_first_match sampleHashlib helloWeb linuxSys "pfx" "1" emptyFS
      ⟨"linux/amd64"⟩ (by rfl)).1 [winDep] helloDep [helloDep] ⟨"linux/amd64"⟩
      hskip (by rfl) (by rfl)
  · have h := (C5_first_match sampleHashlib helloWeb linuxSys "pfx" "1" emptyFS
      ⟨"linux/amd64"⟩ (by rfl)).2 [winDep] hskip
    exact (congrArg Prod.snd h).trans rfl

theorem C8_download_permissions_witness :
    ((∀ c ∈ helloWeb helloURI.value, c ≠ ([] : List Nat)) ∧
      b64encodeStr (sampleHashlib.digest helloSRI.algorithm
        (helloWeb helloURI.value).flatten) = helloSRI.checksum) ∧
    (download sampleHashlib helloWeb helloURI helloSRI "pfx/download-1/test.bat" emptyFS).2
      = none ∧
    (download sampleHashlib helloWeb helloURI helloSRI
      "pfx/download-1/test.bat" emptyFS).1.mode "pfx/download-1/test.bat" = some 320 := by
  refine ⟨⟨by decide, by decide⟩, ?_, ?_⟩
  · exact (C8_download_permissions sampleHashlib helloWeb helloURI helloSRI
      "pfx/download-1/test.bat" emptyFS (by decide) (by decide)).1
  · have h := (C8_download_permissions sampleHashlib helloWeb helloURI helloSRI
      "pfx/download-1/test.bat" emptyFS (by decide) (by decide)).2.2
    rw [h.2] at h
    exact h.1

/-- C6 counterexample: on a runtime environment reporting the
unrecognized operating system `SunOS`, `Platform.host` fails with
`KeyError('SunOS')` — an error carrying the invalid raw value whose
payload contains none of the accepted canonical values, refuting the
claim that the failure carries the list of accepted values. -/
theorem C6_counterexample :
    Platform.host ⟨"SunOS", "x86_64"⟩ = .error (.keyError "SunOS") ∧
    PyError.payload (.keyError "SunOS") = "SunOS" ∧
    (∀ v ∈ dictValues Platform.OS,
      strContains (PyError.payload (.keyError "SunOS")) v = false) := by
  refine ⟨rfl, rfl, by decide⟩

/-- C6 (amended): for every runtime environment whose raw
operating-system name is not a key of the `Platform.OS` mapping,
`Platform.host` fails with a `KeyError` carrying the invalid raw value
(only — the accepted values appear in no part of the error); likewise
for the raw CPU name against `Platform.CPU` when the OS is
recognized. -/
theorem C6_host_unrecognized (sys : SysInfo) :
    (Platform.OS.lookup sys.system = none →
      Platform.host sys = .error (.keyError sys.system)) ∧
    (∀ os, Platform.OS.lookup sys.system = some os →
      Platform.CPU.lookup sys.machine = none →
      Platform.host sys = .error (.keyError sys.machine)) := by
  constructor
  · intro h
    unfold Platform.host dictGet
    rw [h]
    rfl
  · intro os h1 h2
    unfold Platform.host dictGet
    rw [h1, h2]
    rfl

theorem C6_host_unrecognized_witness :
    (Platform.OS.lookup "SunOS" = none ∧
      Platform.host ⟨"SunOS", "x86_64"⟩ = .error (.keyError "SunOS")) ∧
    (Platform.OS.lookup "Linux" = some "linux" ∧
      Platform.CPU.lookup "sparc" = none ∧
      Platform.host ⟨"Linux", "sparc"⟩ = .error (.keyError "sparc")) := by
  refine ⟨⟨rfl, ?_⟩, rfl, rfl, ?_⟩
  · exact (C6_host_unrecognized ⟨"SunOS", "x86_64"⟩).1 rfl
  · exact (C6_host_unrecognized ⟨"Linux", "sparc"⟩).2 "linux" rfl rfl

/-- C7: `SRI` parsing splits the raw value at the first `-` and fails
when the algorithm name is not among the available hash algorithms;
when the remainder is not valid base64 — a decode error propagates, and
a decoded payload whose re-encoding differs from the original string
(the round-trip check) is rejected; or when the decoded payload length
differs from the algorithm's digest size, in which case the error names
both the observed and the expected length. -/
theorem C7_sri_parse (hl : Hashlib) (value algorithm checksum : String)
    (hsplit : pySplit1 value '-' = some (algorithm, checksum)) :
    (hl.algorithms_available.contains algorithm = false →
      SRI.mk' hl value = .error (.valueError ("`" ++ algorithm ++
        "` is not available, choose one of: " ++
        String.intercalate "," hl.algorithms_available ++ "`"))) ∧
    (∀ e, hl.algorithms_available.contains algorithm = true →
      b64decode checksum = .error e → SRI.mk' hl value = .error e) ∧
    (∀ d, hl.algorithms_available.contains algorithm = true →
      b64decode checksum = .ok d → b64encodeStr d ≠ checksum →
      SRI.mk' hl value = .error (.valueError
        "Invalid checksum string, the checksum string has to be encoded in base64.")) ∧
    (∀ d, hl.algorithms_available.contains algorithm = true →
      b64decode checksum = .ok d → b64encodeStr d = checksum →
      d.length ≠ hl.digest_size algorithm →
      (SRI.mk' hl value = .error (.valueError
        ("Invalid checksum string length of " ++ toString d.length ++ " for " ++
          algorithm ++ ", expected " ++ toString (hl.digest_size algorithm))) ∧
       strContains ("Invalid checksum string length of " ++ toString d.length ++
         " for " ++ algorithm ++ ", expected " ++
         toString (hl.digest_size algorithm)) (toString d.length) = true ∧
       strContains ("Invalid checksum string length of " ++ toString d.length ++
         " for " ++ algorithm ++ ", expected " ++
         toString (hl.digest_size algorithm))
         (toString (hl.digest_size algorithm)) = true)) := by
  refine ⟨?_, ?_, ?_, ?_⟩
  · intro hc
    unfold SRI.mk'
    simp only [hsplit]
    rw [if_pos (by simp only [hc]; decide)]
  · intro e hc hb
    unfold SRI.mk'
    simp only [hsplit]
    rw [if_neg (by simp only [hc]; decide)]
    simp only [hb]
  · intro d hc hb hrt
    unfold SRI.mk'
    simp only [hsplit]
    rw [if_neg (by simp only [hc]; decide)]
    simp only [hb, pyBytesDecode_b64 d _ codecIsUtf8_plain]
    rw [if_pos hrt]
  · intro d hc hb hrt hlen
    refine ⟨?_, ?_, ?_⟩
    · unfold SRI.mk'
      simp only [hsplit]
      rw [if_neg (by simp only [hc]; decide)]
      simp only [hb, pyBytesDecode_b64 d _ codecIsUtf8_plain]
      rw [if_neg (fun hx : b64encodeStr d ≠ checksum => hx hrt)]
      show (if d.length ≠ hl.digest_size algorithm then
          Except.error (PyError.valueError ("Invalid checksum string length of " ++
            toString d.length ++ " for " ++ algorithm ++ ", expected " ++
            toString (hl.digest_size algorithm)))
        else Except.ok ({ value := value, algorithm := algorithm, checksum := checksum } : SRI)) = _
      rw [if_pos hlen]
    · exact strContains_of_eq _ _ "Invalid checksum string length of "
        (" for " ++ algorithm ++ ", expected " ++ toString (hl.digest_size algorithm))
        (by
          apply String.ext
          simp [String.data_append, List.append_assoc])
    · exact strContains_of_eq _ _
        ("Invalid checksum string length of " ++ toString d.length ++ " for " ++
          algorithm ++ ", expected ") ""
        (by
          apply String.ext
          simp [String.data_append, List.append_assoc,
            show ("" : String).data = [] from rfl])

theorem C7_sri_parse_witness :
    pySplit1 "sha256-xxxxxxxxxxxxxxxxxxxxxxxxxxxxxxxxxxxxxxxxxxxx" '-' =
      some ("sha256", "xxxxxxxxxxxxxxxxxxxxxxxxxxxxxxxxxxxxxxxxxxxx") ∧
    SRI.mk' sampleHashlib "sha256-xxxxxxxxxxxxxxxxxxxxxxxxxxxxxxxxxxxxxxxxxxxx" =
      .error (.valueError
        "Invalid checksum string length of 33 for sha256, expected 32") := by
  refine ⟨rfl, ?_⟩
  have h := (C7_sri_parse sampleHashlib
    "sha256-xxxxxxxxxxxxxxxxxxxxxxxxxxxxxxxxxxxxxxxxxxxx" "sha256"
    "xxxxxxxxxxxxxxxxxxxxxxxxxxxxxxxxxxxxxxxxxxxx" rfl).2.2.2
    (b64decodeDigits (List.replicate 44 49)) rfl (by rfl) (by rfl) (by decide)
  exact h.1.trans (by rfl)

/-- C9: constructing a `Platform` token from `os ++ "/" ++ cpu` (with a
slash-free os component — every recognized token is) succeeds exactly
when the os component belongs to the allow-list of recognized operating
systems and the cpu component belongs to the allow-list of recognized
CPU architectures; the OS allow-list has 5 entries and the CPU
allow-list has 10 entries. -/
theorem C9_platform_allowlists (os cpu : String) (h : '/' ∉ os.data) :
    ((∃ p, Platform.mk' (os ++ "/" ++ cpu) = .ok p) ↔
      (os ∈ dictValues Platform.OS ∧ cpu ∈ dictValues Platform.CPU)) ∧
    (dictValues Platform.OS).length = 5 ∧
    (dictValues Platform.CPU).length = 10 := by
  refine ⟨?_, rfl, rfl⟩
  unfold Platform.mk'
  simp only [pySplit1_slash os cpu h]
  constructor
  · rintro ⟨p, hp⟩
    cases h1 : (dictValues Platform.OS).contains os with
    | false =>
      rw [if_pos (by simp only [h1]; decide)] at hp
      exact absurd hp (by simp)
    | true =>
      rw [if_neg (by simp only [h1]; decide)] at hp
      cases h2 : (dictValues Platform.CPU).contains cpu with
      | false =>
        rw [if_pos (by simp only [h2]; decide)] at hp
        exact absurd hp (by simp)
      | true =>
        exact ⟨by simpa using h1, by simpa using h2⟩
  · rintro ⟨h1, h2⟩
    refine ⟨⟨os ++ "/" ++ cpu⟩, ?_⟩
    rw [if_neg (by simpa using h1), if_neg (by simpa using h2)]

theorem C9_platform_allowlists_witness :
    ('/' ∉ ("linux" : String).data) ∧
    (∃ p, Platform.mk' ("linux" ++ "/" ++ "amd64") = .ok p) ∧
    ¬ (∃ p, Platform.mk' ("plan9" ++ "/" ++ "amd64") = .ok p) := by
  refine ⟨by decide, ?_, ?_⟩
  · exact ((C9_platform_allowlists "linux" "amd64" (by decide)).1).mpr
      ⟨by decide, by decide⟩
  · intro hex
    have h := ((C9_platform_allowlists "plan9" "amd64" (by decide)).1).mp hex
    exact absurd h.1 (by decide)

/-- C10: `ChecksumMismatchError` is a subclass of `ValueError`, the
same type every configuration/parse failure raises (bad SRI string, bad
platform token, bad URI — including the `binascii.Error` subclass of
`ValueError` from base64 decoding), so an `except ValueError` handler
catches integrity failures too; the two kinds are distinguishable only
by the more specific class, which catches every mismatch and no parse
error. -/
theorem C10_exception_hierarchy (hl : Hashlib) :
    PyClass.issubclass .checksumMismatchError .valueError = true ∧
    (∀ E A M, catches .valueError (.checksumMismatch E A M) = true) ∧
    (∀ s e, SRI.mk' hl s = .error e →
      catches .valueError e = true ∧ catches .checksumMismatchError e = false) ∧
    (∀ s e, Platform.mk' s = .error e →
      catches .valueError e = true ∧ catches .checksumMismatchError e = false) ∧
    (∀ s e, URI.mk' s = .error e →
      catches .valueError e = true ∧ catches .checksumMismatchError e = false) ∧
    (∀ E A M, catches .checksumMismatchError (.checksumMismatch E A M) = true) :=
  ⟨rfl, fun _ _ _ => rfl, SRI_mk_error_class hl, Platform_mk_error_class,
    URI_mk_error_class, fun _ _ _ => rfl⟩

theorem C10_exception_hierarchy_witness :
    catches .valueError (.checksumMismatch "e" "a" "checksum mismatch") = true ∧
    ( URI.mk' "nonsense" = .error (.valueError "Invalid URI: nonsense") ∧
      catches .valueError (.valueError "Invalid URI: nonsense") = true ∧
      catches .checksumMismatchError (.valueError "Invalid URI: nonsense") = false) := by
  refine ⟨?_, rfl, ?_⟩
  · exact (C10_exception_hierarchy sampleHashlib).2.1 "e" "a" "checksum mismatch"
  · exact (C10_exception_hierarchy sampleHashlib).2.2.2.2.1 "nonsense"
      (.valueError "Invalid URI: nonsense") rfl

end Download
